import Mathlib

/-!
Shallow embedding of the computation-bearing snippets of the
advanced-viz-cookbook notebooks (spaghetti-plot chapter and the
package-comparison / good-viz chapters), together with theorems that
settle the frozen claims about them.

Python integers are modelled as `Nat`/`Int`, Python datetimes and
timedeltas as exact rationals `ℚ` (the notebook divides two timedeltas,
an exact operation), fallible computations (`IndexError`,
`ZeroDivisionError`) as `Option`.
-/

namespace Cookbook

/-! ## `str.zfill` and the GFS ensemble-member keys

Source (spaghetti notebook):
`GFS_keys = ['AP' + str(i).zfill(2) for i in range(1, 21)]`
and the loop `for i in range(20): ap = forecasts[GFS_keys[i]]`.
-/

/-- Python `s.zfill(w)`: left-pad the string with `'0'` to width `w`. -/
def zfill (w : Nat) (s : String) : String :=
  if w ≤ s.length then s
  else String.mk (List.replicate (w - s.length) '0') ++ s

/-- `GFS_keys = ['AP' + str(i).zfill(2) for i in range(1, 21)]`. -/
def GFS_keys : List String :=
  (List.range' 1 20).map (fun i => "AP" ++ zfill 2 (toString i))

/-! ## Directional labels of the polar-stereographic cells

Source:
`ticks = np.arange(0, 210, 30)`
`etick = ['0'] + [r'%dE' % tick for tick in ticks if (tick != 0) & (tick != 180)] + ['180']`
`wtick = [r'%dW' % tick for tick in ticks if (tick != 0) & (tick != 180)]`
`labels = etick + wtick`
`xticks = np.arange(0, 360, 30)`
and the `for xtick, ytick, label in zip(xticks, yticks, labels)` loop that
draws `'180'` with `verticalalignment='top'`, `'0'` with
`verticalalignment='bottom'` and all other labels with `'center'`.
-/

/-- `np.arange(start, stop, step)` over naturals with positive step:
the `⌈(stop - start)/step⌉` values `start, start+step, ...` below `stop`. -/
def arangeStep (start stop step : Nat) : List Nat :=
  (List.range ((stop - start + step - 1) / step)).map (fun k => start + step * k)

/-- `ticks = np.arange(0, 210, 30)`. -/
def ticks : List Nat := arangeStep 0 210 30

/-- `etick = ['0'] + [r'%dE' % tick for tick in ticks if (tick != 0) & (tick != 180)] + ['180']`. -/
def etick : List String :=
  ["0"] ++ ((ticks.filter (fun t => (t != 0) && (t != 180))).map
    (fun t => toString t ++ "E")) ++ ["180"]

/-- `wtick = [r'%dW' % tick for tick in ticks if (tick != 0) & (tick != 180)]`. -/
def wtick : List String :=
  (ticks.filter (fun t => (t != 0) && (t != 180))).map (fun t => toString t ++ "W")

/-- `labels = etick + wtick`. -/
def labels : List String := etick ++ wtick

/-- `xticks = np.arange(0, 360, 30)`. -/
def xticks : List Nat := arangeStep 0 360 30

/-- The `verticalalignment` keyword the labeling loop passes to `ax.text`
for a given label: `'top'` for `'180'`, `'bottom'` for `'0'`, else `'center'`. -/
def verticalalignment (label : String) : String :=
  if label = "180" then "top"
  else if label = "0" then "bottom"
  else "center"

/-- Lexicographic strict order on character lists (executable form of
Python string comparison). -/
def lexLt : List Char → List Char → Bool
  | [], [] => false
  | [], _ :: _ => true
  | _ :: _, [] => false
  | a :: as, b :: bs =>
    if a.val < b.val then true
    else if b.val < a.val then false
    else lexLt as bs

/-- A string list is strictly increasing when each adjacent pair is in
strict lexicographic order. -/
def strictIncreasing : List String → Bool
  | [] => true
  | [_] => true
  | a :: b :: rest => lexLt a.data b.data && strictIncreasing (b :: rest)

/-- C3: `GFS_keys = ['AP' + str(i).zfill(2) for i in range(1, 21)]` evaluates
to exactly the 20 strings `AP01`, ..., `AP20` in increasing order, each with a
two-digit zero-padded index, and the loop `for i in range(20)` indexes
`GFS_keys` only at in-bounds positions `0` through `19`. -/
theorem GFS_keys_spec :
    GFS_keys = ["AP01", "AP02", "AP03", "AP04", "AP05", "AP06", "AP07",
      "AP08", "AP09", "AP10", "AP11", "AP12", "AP13", "AP14", "AP15", "AP16",
      "AP17", "AP18", "AP19", "AP20"] ∧
    strictIncreasing GFS_keys = true ∧
    ((List.range 20).all (fun i => i < GFS_keys.length)) = true := by
  decide

/-- C9: `labels = etick + wtick` evaluates to exactly the 12 strings
`['0', '30E', '60E', '90E', '120E', '150E', '180', '30W', '60W', '90W',
'120W', '150W']`, whose length equals that of `xticks = np.arange(0, 360, 30)`,
so `zip` pairs each of the 12 tick longitudes with exactly one label and drops
none; exactly one label (`'180'`) is drawn with verticalalignment `'top'` and
exactly one (`'0'`) with `'bottom'`. -/
theorem labels_spec :
    labels = ["0", "30E", "60E", "90E", "120E", "150E", "180",
      "30W", "60W", "90W", "120W", "150W"] ∧
    xticks.length = 12 ∧
    labels.length = xticks.length ∧
    (xticks.zip labels).length = 12 ∧
    (labels.filter (fun l => verticalalignment l == "top")).length = 1 ∧
    (labels.filter (fun l => verticalalignment l == "bottom")).length = 1 := by
  decide

/-! ## Temporal colormap normalization of the spaghetti-plot cell

Source:
`times = [datetime.datetime.strptime(i, format) for i in list(forecasts_AP01.keys())]`
`normalized_times = [(i - times[0]) / (times[-1] - times[0]) for i in times]`

Datetimes and timedeltas are modelled as exact rationals; `times[0]` /
`times[-1]` raise `IndexError` on an empty list and the timedelta division
raises `ZeroDivisionError` on a zero divisor, both modelled as `none`. -/

/-- `normalized_times = [(i - times[0]) / (times[-1] - times[0]) for i in times]`,
`none` when the list is empty (`IndexError`) or the divisor
`times[-1] - times[0]` is zero (`ZeroDivisionError`). -/
def normalized_times (times : List ℚ) : Option (List ℚ) :=
  match times with
  | [] => none
  | t0 :: rest =>
    if rest.getLastD t0 - t0 = 0 then none
    else some ((t0 :: rest).map (fun i => (i - t0) / (rest.getLastD t0 - t0)))

/-- In a `≤`-chain starting at `d`, every element is at most the last element. -/
lemma le_getLastD_of_chain' :
    ∀ (l : List ℚ) (d : ℚ), List.Chain' (· ≤ ·) (d :: l) →
      ∀ x ∈ d :: l, x ≤ l.getLastD d
  | [], d, _, x, hx => by
    simp only [List.mem_singleton] at hx
    simp [hx]
  | b :: bs, d, h, x, hx => by
    rw [List.chain'_cons] at h
    obtain ⟨hdb, hrest⟩ := h
    have ih := le_getLastD_of_chain' bs b hrest
    rw [List.getLastD_cons]
    rcases List.mem_cons.mp hx with hx | hx
    · exact hx ▸ le_trans hdb (ih b (List.mem_cons_self b bs))
    · exact ih x hx

/-- In a `≤`-chain starting at `d`, every element is at least `d`. -/
lemma head_le_of_chain' (l : List ℚ) (d : ℚ) (h : List.Chain' (· ≤ ·) (d :: l)) :
    ∀ x ∈ d :: l, d ≤ x := by
  have hp := List.chain'_iff_pairwise.mp h
  intro x hx
  rcases List.mem_cons.mp hx with hx | hx
  · exact hx ▸ le_refl d
  · exact List.rel_of_pairwise_cons hp hx

/-- `times[-1]` of a nonempty list, through `getLast?`. -/
lemma getLast?_cons_getLastD (t0 : ℚ) (rest : List ℚ) :
    (t0 :: rest).getLast? = some (rest.getLastD t0) := by
  rw [List.getLast?_cons, List.getLastD_eq_getLast?]

/-- C7: for every list `times` of at least two parsed initialization datetimes
whose first and last elements differ, the normalization
`(i - times[0]) / (times[-1] - times[0])` is well-defined for every element,
maps the first element to `0` and the last to `1`, keeps every value in
`[0, 1]` when `times` is nondecreasing, and is monotone in the input; when
`times` has exactly one element or its first and last elements coincide, the
divisor is zero and the computation raises a division error (`none`). -/
theorem normalized_times_spec (times : List ℚ) :
    (2 ≤ times.length → times.head? ≠ times.getLast? →
      ∃ l, normalized_times times = some l ∧
        l.length = times.length ∧
        l.head? = some 0 ∧
        l.getLast? = some 1 ∧
        (List.Chain' (· ≤ ·) times →
          (∀ x ∈ l, 0 ≤ x ∧ x ≤ 1) ∧ List.Chain' (· ≤ ·) l)) ∧
    (times.length = 1 → normalized_times times = none) ∧
    (times ≠ [] → times.head? = times.getLast? → normalized_times times = none) := by
  refine ⟨?_, ?_, ?_⟩
  · intro h2 hne
    match times with
    | t0 :: rest =>
      set tn := rest.getLastD t0 with htn
      have hlast : (t0 :: rest).getLast? = some tn := getLast?_cons_getLastD t0 rest
      have hne' : tn ≠ t0 := by
        intro hcontra
        apply hne
        rw [hlast, List.head?_cons, hcontra]
      have hdvd : tn - t0 ≠ 0 := sub_ne_zero_of_ne hne'
      refine ⟨(t0 :: rest).map (fun i => (i - t0) / (tn - t0)), ?_, ?_, ?_, ?_, ?_⟩
      · simp only [normalized_times, ← htn, if_neg hdvd]
      · simp
      · simp
      · rw [List.getLast?_map, hlast]
        simp [div_self hdvd]
      · intro hch
        have hbounds := le_getLastD_of_chain' rest t0 hch
        have hhead := head_le_of_chain' rest t0 hch
        have h0n : t0 ≤ tn := hbounds t0 (List.mem_cons_self t0 rest)
        have hpos : 0 < tn - t0 := sub_pos.mpr (lt_of_le_of_ne h0n (Ne.symm hne'))
        constructor
        · intro x hx
          obtain ⟨y, hy, rfl⟩ := List.mem_map.mp hx
          constructor
          · exact div_nonneg (sub_nonneg.mpr (hhead y hy)) (le_of_lt hpos)
          · rw [div_le_one hpos]
            exact sub_le_sub_right (hbounds y hy) t0
        · rw [List.chain'_map]
          refine hch.imp ?_
          intro a b hab
          exact (div_le_div_iff_of_pos_right hpos).mpr (sub_le_sub_right hab t0)
  · intro h1
    match times with
    | [t] => simp [normalized_times]
  · intro hne heq
    match times with
    | t0 :: rest =>
      rw [getLast?_cons_getLastD, List.head?_cons] at heq
      have hz : rest.getLastD t0 - t0 = 0 := by
        rw [← Option.some_inj.mp heq]
        ring
      rw [List.getLastD_eq_getLast?] at hz
      simp [normalized_times, hz]

/-- C7 witness: the spec instantiated at the concrete inputs `[0, 1]`
(well-defined, endpoints `0` and `1`), `[5]` (one element: division error) and
`[3, 3]` (equal endpoints: division error). -/
theorem normalized_times_spec_witness :
    (∃ l, normalized_times [(0 : ℚ), 1] = some l ∧ l.head? = some 0 ∧
      l.getLast? = some 1) ∧
    normalized_times [(5 : ℚ)] = none ∧
    normalized_times [(3 : ℚ), 3] = none := by
  refine ⟨?_, (normalized_times_spec [5]).2.1 rfl,
    (normalized_times_spec [3, 3]).2.2 (by decide) (by decide)⟩
  obtain ⟨l, h1, _, h3, h4, _⟩ := (normalized_times_spec [0, 1]).1 (by decide) (by decide)
  exact ⟨l, h1, h3, h4⟩

/-- C1 counterexample: the claim says the mapping from raw values to the
normalized `[0, 1]` scale is produced by a library call and not by arithmetic
defined in this repository — under that reading the repository would hand the
library the raw values unchanged.  On the concrete raw times `[0, 6, 12]` the
repository-defined `normalized_times` itself performs the normalization,
returning `[0, 1/2, 1]` rather than the raw values. -/
theorem normalized_times_not_raw_values :
    normalized_times [(0 : ℚ), 6, 12] = some [0, 1/2, 1] ∧
    normalized_times [(0 : ℚ), 6, 12] ≠ some [0, 6, 12] := by
  constructor
  · norm_num [normalized_times]
  · norm_num [normalized_times]

/-- C1 (amended): the colormap normalization of the spaghetti-plot notebook is
not delegated: the repository's own arithmetic
`normalized_times = [(i - times[0]) / (times[-1] - times[0]) for i in times]`
maps the raw times onto the `[0, 1]` scale, sending the first time to `0` and
the last to `1`. -/
theorem normalized_times_repo_arithmetic (t0 tn : ℚ) (h : t0 ≠ tn) :
    normalized_times [t0, tn] = some [0, 1] := by
  have hdvd : tn - t0 ≠ 0 := sub_ne_zero_of_ne (Ne.symm h)
  simp [normalized_times, hdvd, sub_self, div_self]

/-- C1 witness: the amended claim at the concrete raw times `0` and `6`. -/
theorem normalized_times_repo_arithmetic_witness :
    normalized_times [(0 : ℚ), 6] = some [0, 1] :=
  normalized_times_repo_arithmetic 0 6 (by norm_num)

/-! ## Contour-spaghetti colorbar ticks

Source:
`n = 19`, `cmap = plt.get_cmap('winter_r', n)`, `year_0 = 1958`,
`norm = plt.Normalize(vmin=year_0, vmax=year_n)`,
`cbar.set_ticks(np.arange(year_0+0.5, year_n))`,
`cbar.set_ticklabels(np.arange(year_0, year_n))`.
`year_n` is computed from the dataset
(`(ds.time.isel(time=12*n) / 12).astype(int) + year_0`), so it is kept as a
parameter here; the claim's precondition is `year_n - year_0 = n`. -/

/-- `np.arange(lo, hi)` with unit step over rationals: the `⌈hi - lo⌉`
values `lo, lo + 1, ...` below `hi`. -/
def arangeQ (lo hi : ℚ) : List ℚ :=
  (List.range (⌈hi - lo⌉.toNat)).map (fun k => lo + k)

/-- `year_0 = 1958`. -/
def year_0 : ℚ := 1958

/-- `n = 19`, the number of contours and of discrete colors of
`plt.get_cmap('winter_r', n)`. -/
def n : ℕ := 19

/-- `cbar.set_ticks(np.arange(year_0+0.5, year_n))`: the tick positions. -/
def cbar_ticks (year_n : ℚ) : List ℚ := arangeQ (year_0 + 0.5) year_n

/-- `cbar.set_ticklabels(np.arange(year_0, year_n))`: the tick labels. -/
def cbar_ticklabels (year_n : ℚ) : List ℚ := arangeQ year_0 year_n

/-- The midpoints of `count` equal-width color boxes of a colorbar whose norm
spans `[lo, hi]`: box `i` spans `[lo + i·w, lo + (i+1)·w]` with
`w = (hi - lo)/count`, so its midpoint is `lo + (i + 1/2)·w`.  (Stated from
the claim, to be compared with the source's tick positions.) -/
def boxMidpoints (lo hi : ℚ) (count : ℕ) : List ℚ :=
  (List.range count).map (fun i => lo + ((i : ℚ) + 1/2) * ((hi - lo) / count))

/-- C2: with `n = 19` discrete colors, a norm spanning `[year_0, year_n]` and
the precondition `year_n - year_0 = n`, the tick positions
`np.arange(year_0 + 0.5, year_n)` are exactly the `n` midpoints of the `n`
equal-width color boxes, and the number of tick labels
`np.arange(year_0, year_n)` equals the number of tick positions, so
`set_ticklabels` pairs each midpoint tick with exactly one integer year label. -/
theorem cbar_ticks_midpoints (year_n : ℚ) (h : year_n - year_0 = n) :
    cbar_ticks year_n = boxMidpoints year_0 year_n n ∧
    (cbar_ticks year_n).length = n ∧
    (cbar_ticklabels year_n).length = (cbar_ticks year_n).length := by
  have hn : (n : ℚ) = 19 := by norm_num [n]
  have h19 : year_n - year_0 = 19 := by rw [h, hn]
  have hc1 : (⌈year_n - (year_0 + 0.5)⌉ : ℤ) = 19 := by
    rw [Int.ceil_eq_iff]
    norm_num
    constructor <;> linarith
  have hc2 : (⌈year_n - year_0⌉ : ℤ) = 19 := by
    rw [h19]
    norm_num
  have htn : Int.toNat 19 = n := rfl
  have hmap : cbar_ticks year_n = boxMidpoints year_0 year_n n := by
    simp only [cbar_ticks, boxMidpoints, arangeQ, hc1, htn]
    apply List.map_congr_left
    intro a _
    rw [h19, hn]
    ring
  have hlen1 : (cbar_ticks year_n).length = n := by
    simp only [cbar_ticks, arangeQ, List.length_map, List.length_range, hc1]
    rfl
  have hlen2 : (cbar_ticklabels year_n).length = n := by
    simp only [cbar_ticklabels, arangeQ, List.length_map, List.length_range, hc2]
    rfl
  exact ⟨hmap, hlen1, by rw [hlen1, hlen2]⟩

/-- C2 witness: the claim at the concrete dataset value `year_n = 1977`
(the value forced by the precondition `year_n - year_0 = n`). -/
theorem cbar_ticks_midpoints_witness :
    cbar_ticks 1977 = boxMidpoints year_0 1977 n ∧
    (cbar_ticks 1977).length = n ∧
    (cbar_ticklabels 1977).length = (cbar_ticks 1977).length :=
  cbar_ticks_midpoints 1977 (by norm_num [year_0, n])

/-! ## Trace of the hurricane spaghetti-plot cell

Source ("Spaghetti Plot of AP01 forecasts" cell): `ax = plt.axes(...)`,
`ax.add_feature(...)`, `gl = ax.gridlines(...)` followed by four gridline
attribute assignments, then `for i in forecasts_AP01: forecast_path =
plt.plot(...)` (one call per key), `true_path = plt.plot(...)`,
`plt.legend(...)`, `plt.title(...)`.  Each statement is recorded as one
plot-level event; `plt.plot` draws onto the current axes and creates none. -/

/-- The plot-level events a statement of the spaghetti-plot cell performs. -/
inductive PlotEvent where
  | newAxes
  | addFeature
  | gridlines
  | gridlineConfig
  | plotLine
  | legend
  | title
deriving DecidableEq

/-- The event trace of the spaghetti-plot cell, for a forecast dictionary
`forecasts_AP01` with the given initialization keys: one axes creation, the
feature and gridline configuration, one `plt.plot` per key, the true-path
`plt.plot`, the legend and the title. -/
def spaghettiCellTrace (keys : List String) : List PlotEvent :=
  [PlotEvent.newAxes, PlotEvent.addFeature, PlotEvent.gridlines,
   PlotEvent.gridlineConfig, PlotEvent.gridlineConfig,
   PlotEvent.gridlineConfig, PlotEvent.gridlineConfig]
  ++ keys.map (fun _ => PlotEvent.plotLine)
  ++ [PlotEvent.plotLine, PlotEvent.legend, PlotEvent.title]

/-- C4: a spaghetti plot overlays all its line traces on one set of axes: for
every dictionary `forecasts_AP01` with `k` initialization keys, the cell
creates exactly one axes (the loop creates none), and performs exactly one
`plt.plot` per key plus one for the true path, so the single axes holds
exactly `k + 1` lines. -/
theorem spaghetti_cell_trace_spec (keys : List String) :
    (spaghettiCellTrace keys).count PlotEvent.newAxes = 1 ∧
    (spaghettiCellTrace keys).count PlotEvent.plotLine = keys.length + 1 := by
  constructor <;>
    simp [spaghettiCellTrace, List.count_append, List.count_cons,
      List.count_replicate]

/-- C4 witness: the trace invariant at two concrete initialization keys. -/
theorem spaghetti_cell_trace_spec_witness :
    (spaghettiCellTrace ["2012102318", "2012102400"]).count PlotEvent.newAxes = 1 ∧
    (spaghettiCellTrace ["2012102318", "2012102400"]).count PlotEvent.plotLine = 2 + 1 :=
  spaghetti_cell_trace_spec ["2012102318", "2012102400"]

/-! ## The temporal-colormapping counter loop

Source:
`times = [datetime.datetime.strptime(i, format) for i in list(forecasts_AP01.keys())]`
(`strptime`, a library call, is abstracted as the parameter `parse`),
`cmap = mpl.colors.ListedColormap(plt.cm.autumn_r(normalized_times))`
(the library colormap function `plt.cm.autumn_r` is abstracted as `autumnR`;
applied to a list it yields one color per entry), and the loop
`c = 0; for i in forecasts_AP01: plt.plot(..., color=cmap(c)); c += 1`. -/

/-- `times = [datetime.datetime.strptime(i, format) for i in keys]` with the
library `strptime` abstracted as `parse`. -/
def initTimes (parse : String → ℚ) (keys : List String) : List ℚ :=
  keys.map parse

/-- `mpl.colors.ListedColormap(plt.cm.autumn_r(normalized))`: the listed
colormap holds one color per entry of `normalized`, namely its image under
the library colormap function. -/
def listedColormap {γ : Type} (autumnR : ℚ → γ) (normalized : List ℚ) : List γ :=
  normalized.map autumnR

/-- The counter loop starting at counter value `c`: it pairs each remaining
key with the counter value at its iteration, incrementing by one per key. -/
def colorLoopFrom (c : ℕ) : List String → List (ℕ × String)
  | [] => []
  | k :: ks => (c, k) :: colorLoopFrom (c + 1) ks

/-- `c = 0; for i in forecasts_AP01: plt.plot(..., color=cmap(c)); c += 1`:
the (color index, key) pairs of the loop in iteration order. -/
def colorLoop (keys : List String) : List (ℕ × String) :=
  colorLoopFrom 0 keys

/-- The counter loop from `c` enumerates the keys with consecutive indices
starting at `c`. -/
lemma colorLoopFrom_eq_zip (c : ℕ) (ks : List String) :
    colorLoopFrom c ks = (List.range' c ks.length).zip ks := by
  induction ks generalizing c with
  | nil => rfl
  | cons k ks ih => simp [colorLoopFrom, List.range'_succ, ih]

/-- `normalized_times` preserves the length of its input when it succeeds. -/
lemma normalized_times_length {ts l : List ℚ} (h : normalized_times ts = some l) :
    l.length = ts.length := by
  match ts with
  | [] => simp [normalized_times] at h
  | t0 :: rest =>
    by_cases hz : rest.getLastD t0 - t0 = 0
    · simp [normalized_times, ← List.getLastD_eq_getLast?, hz] at h
    · simp only [normalized_times, if_neg hz, Option.some_inj] at h
      rw [← h]
      simp

/-- C8: in the temporal-colormapping loop the counter `c` equals, before each
iteration, the number of forecast lines already drawn: the loop pairs the
`i`-th key in iteration order with color index `i`, so `c` ranges over exactly
`0 .. k-1` for the `k` keys; and since the `ListedColormap` is built from
exactly one color per key, no color index reaches the colormap's size. -/
theorem color_loop_spec {γ : Type} (autumnR : ℚ → γ) (parse : String → ℚ)
    (keys : List String) (l : List ℚ)
    (h : normalized_times (initTimes parse keys) = some l) :
    colorLoop keys = (List.range keys.length).zip keys ∧
    (listedColormap autumnR l).length = keys.length ∧
    ∀ p ∈ colorLoop keys, p.1 < (listedColormap autumnR l).length := by
  have hzip : colorLoop keys = (List.range keys.length).zip keys := by
    rw [colorLoop, colorLoopFrom_eq_zip, List.range_eq_range']
  have hlen : (listedColormap autumnR l).length = keys.length := by
    simp [listedColormap, normalized_times_length h, initTimes]
  refine ⟨hzip, hlen, ?_⟩
  intro p hp
  rw [hzip] at hp
  rw [hlen]
  exact List.mem_range.mp (List.of_mem_zip hp).1

/-- C8 witness: the loop invariant at the concrete keys `["a", "b"]` with a
concrete parse function sending them to times `0` and `1`, the identity as
the colormap function, and the resulting normalized list `[0, 1]`. -/
theorem color_loop_spec_witness :
    colorLoop ["a", "b"] = (List.range 2).zip ["a", "b"] ∧
    (listedColormap (fun q : ℚ => q) [0, 1]).length = 2 ∧
    ∀ p ∈ colorLoop ["a", "b"], p.1 < (listedColormap (fun q : ℚ => q) [0, 1]).length := by
  have h : normalized_times
      (initTimes (fun s => if s = "a" then (0 : ℚ) else 1) ["a", "b"]) = some [0, 1] := by
    have hba : ¬("b" : String) = "a" := by decide
    norm_num [initTimes, normalized_times, hba]
  exact color_loop_spec (fun q : ℚ => q) (fun s => if s = "a" then (0 : ℚ) else 1)
    ["a", "b"] [0, 1] h

/-! ## Provenance of every dataset the notebooks use

The dataset-entry operations, transcribed in source order from the three
notebooks.  Each record carries the API call as written, the external library
it belongs to, whether the opened path comes from `geocat.datafiles`
(`gdf.get`), and whether any repository-defined code parses the underlying
file format (NetCDF, HURDAT2, IBTrACS) — read off the source line, which in
every case consists solely of the library call. -/

/-- The external libraries through which data enters the notebooks. -/
inductive DataSourceLib where
  | tropycal
  | xarray
deriving DecidableEq

/-- One dataset-entry operation of the notebooks. -/
structure DataLoad where
  call : String
  lib : DataSourceLib
  viaGeocatDatafilesPath : Bool
  parsedByRepoCode : Bool
deriving DecidableEq

/-- All dataset-entry operations of the notebooks, in source order:
the spaghetti notebook's tropycal calls and `xr.open_dataset` on the
geopotential-height file, and the comparison notebook's `xr.open_dataset`
on the climatology file. -/
def dataLoads : List DataLoad :=
  [⟨"tracks.TrackDataset(basin=north_atlantic)", DataSourceLib.tropycal, false, false⟩,
   ⟨"basin.get_storm((sandy, 2012))", DataSourceLib.tropycal, false, false⟩,
   ⟨"storm.to_xarray()", DataSourceLib.tropycal, false, false⟩,
   ⟨"storm.get_operational_forecasts()", DataSourceLib.tropycal, false, false⟩,
   ⟨"xr.open_dataset(gdf.get(netcdf_files/HGT500_MON_1958-1997.nc), decode_times=False)",
     DataSourceLib.xarray, true, false⟩,
   ⟨"xr.open_dataset(gdf.get(netcdf_files/mxclim.nc))", DataSourceLib.xarray, true, false⟩]

/-- C5: all data loading is performed by external libraries, the repository
acting only as a thin client: every dataset enters through tropycal
(`TrackDataset`, `get_storm`, `get_operational_forecasts`, `to_xarray`) or
xarray's `open_dataset` on a geocat-datafiles path, and no operation defined
in this repository parses a file format itself. -/
theorem data_loading_external :
    dataLoads.all (fun d =>
      (d.lib == DataSourceLib.tropycal
        || (d.lib == DataSourceLib.xarray && d.viaGeocatDatafilesPath))
      && !d.parsedByRepoCode) = true := by
  decide

/-! ## Step classification of every code cell

Every top-level statement of every code cell of the three notebooks,
transcribed in source order and classified by the syntactic operation the
repository performs.  Loop bodies are recorded as the per-iteration
statements they execute.  The classification kinds include the systems
operations the claim rules out (`threadSpawn`, `networkOpen`,
`persistentWrite`, `cacheManage`) so that their absence is a statement about
the transcription, not a vacuity of the type. -/

/-- The kind of operation a notebook statement performs, as written in the
repository's code.  The first six are the only ones that occur; the last four
are the systems operations whose absence C6 asserts. -/
inductive StepKind where
  | importLib
  | pureAssign
  | libraryDataAccess
  | libraryCompute
  | plotting
  | display
  | threadSpawn
  | networkOpen
  | persistentWrite
  | cacheManage
deriving DecidableEq

/-- One top-level statement of a notebook code cell. -/
structure Step where
  stmt : String
  kind : StepKind

/-- Statements of the comparison notebook (matplotlib, cartopy, geocat-viz,
metpy cells), in source order. -/
def comparisonNotebookSteps : List Step :=
  [⟨"import matplotlib.pyplot as plt", StepKind.importLib⟩,
   ⟨"import numpy as np", StepKind.importLib⟩,
   ⟨"t = np.arange(0.0, 2.0, 0.01)", StepKind.pureAssign⟩,
   ⟨"s = 1 + np.sin(2 * np.pi * t)", StepKind.pureAssign⟩,
   ⟨"fig, ax = plt.subplots()", StepKind.plotting⟩,
   ⟨"ax.plot(t, s)", StepKind.plotting⟩,
   ⟨"ax.set(xlabel, ylabel, title)", StepKind.plotting⟩,
   ⟨"ax.grid()", StepKind.plotting⟩,
   ⟨"plt.show()", StepKind.display⟩,
   ⟨"import cartopy.crs as ccrs", StepKind.importLib⟩,
   ⟨"ax = plt.axes(projection=ccrs.PlateCarree())", StepKind.plotting⟩,
   ⟨"ax.coastlines()", StepKind.plotting⟩,
   ⟨"plt.show()", StepKind.display⟩,
   ⟨"import xarray as xr", StepKind.importLib⟩,
   ⟨"import matplotlib.pyplot as plt", StepKind.importLib⟩,
   ⟨"import numpy as np", StepKind.importLib⟩,
   ⟨"import geocat.datafiles as gdf", StepKind.importLib⟩,
   ⟨"import geocat.viz as gv", StepKind.importLib⟩,
   ⟨"ds = xr.open_dataset(gdf.get(netcdf_files/mxclim.nc))", StepKind.libraryDataAccess⟩,
   ⟨"U = ds.U[0, :, :]", StepKind.pureAssign⟩,
   ⟨"plt.figure(figsize=(6, 6))", StepKind.plotting⟩,
   ⟨"ax = plt.axes()", StepKind.plotting⟩,
   ⟨"plt.yscale(log)", StepKind.plotting⟩,
   ⟨"levels = np.linspace(-55, 55, 23)", StepKind.pureAssign⟩,
   ⟨"lines = U.plot.contour(...)", StepKind.plotting⟩,
   ⟨"ax.invert_yaxis()", StepKind.plotting⟩,
   ⟨"axRHS = gv.add_height_from_pressure_axis(ax, heights=[4, 8])", StepKind.plotting⟩,
   ⟨"plt.show()", StepKind.display⟩,
   ⟨"import metpy.calc as mpcalc", StepKind.importLib⟩,
   ⟨"from metpy.plots import SkewT", StepKind.importLib⟩,
   ⟨"from metpy.units import units", StepKind.importLib⟩,
   ⟨"fig = plt.figure(figsize=(9, 9))", StepKind.plotting⟩,
   ⟨"skew = SkewT(fig)", StepKind.plotting⟩,
   ⟨"p = [...] * units.hPa", StepKind.pureAssign⟩,
   ⟨"t = [...] * units.degC", StepKind.pureAssign⟩,
   ⟨"td = [...] * units.degC", StepKind.pureAssign⟩,
   ⟨"prof = mpcalc.parcel_profile(p, t[0], td[0]).to(degC)", StepKind.libraryCompute⟩,
   ⟨"u = np.linspace(-10, 10, len(p)) * units.knots", StepKind.pureAssign⟩,
   ⟨"v = np.linspace(-20, 20, len(p)) * units.knots", StepKind.pureAssign⟩,
   ⟨"skew.plot(p, t, r)", StepKind.plotting⟩,
   ⟨"skew.plot(p, td, g)", StepKind.plotting⟩,
   ⟨"skew.plot(p, prof, k)", StepKind.plotting⟩,
   ⟨"skew.plot_barbs(p[::5], u[::5], v[::5])", StepKind.plotting⟩,
   ⟨"skew.ax.set_xlim(-50, 15)", StepKind.plotting⟩,
   ⟨"skew.ax.set_ylim(1000, 100)", StepKind.plotting⟩,
   ⟨"skew.plot_dry_adiabats()", StepKind.plotting⟩,
   ⟨"skew.plot_moist_adiabats()", StepKind.plotting⟩,
   ⟨"skew.plot_mixing_lines()", StepKind.plotting⟩,
   ⟨"plt.show()", StepKind.display⟩]

/-- Statements of the good-viz notebook, in source order. -/
def goodVizNotebookSteps : List Step :=
  [⟨"import matplotlib as mpl", StepKind.importLib⟩,
   ⟨"import matplotlib.pyplot as plt", StepKind.importLib⟩,
   ⟨"import numpy as np", StepKind.importLib⟩,
   ⟨"import geocat.viz as gv", StepKind.importLib⟩,
   ⟨"x = [0, 1, 2, 3, 4, 5]", StepKind.pureAssign⟩,
   ⟨"y = [0, 3, 6, 9, 12, 15]", StepKind.pureAssign⟩,
   ⟨"plt.plot(x, y)", StepKind.plotting⟩,
   ⟨"plt.title(Title)", StepKind.plotting⟩,
   ⟨"plt.xlabel(X Label)", StepKind.plotting⟩,
   ⟨"plt.ylabel(Y Label)", StepKind.plotting⟩,
   ⟨"plt.show()", StepKind.display⟩,
   ⟨"x = [0, 1, 2, 3, 4, 5]", StepKind.pureAssign⟩,
   ⟨"y = [0, 3, 6, 9, 12, 15]", StepKind.pureAssign⟩,
   ⟨"plt.plot(x, y, --, color=red)", StepKind.plotting⟩,
   ⟨"plt.title(Title, fontsize=20)", StepKind.plotting⟩,
   ⟨"plt.xlabel(X Label, fontsize=16)", StepKind.plotting⟩,
   ⟨"plt.ylabel(Y Label, fontsize=16)", StepKind.plotting⟩,
   ⟨"plt.show()", StepKind.display⟩,
   ⟨"mpl.rcParams.keys", StepKind.display⟩,
   ⟨"x = [0, 1, 2, 3, 4, 5]", StepKind.pureAssign⟩,
   ⟨"y = [0, 3, 6, 9, 12, 15]", StepKind.pureAssign⟩,
   ⟨"plt.plot(x, y)", StepKind.plotting⟩,
   ⟨"plt.title(Title)", StepKind.plotting⟩,
   ⟨"plt.xlabel(X Label)", StepKind.plotting⟩,
   ⟨"plt.ylabel(Y Label)", StepKind.plotting⟩,
   ⟨"gv.set_titles_and_labels(plt.gca())", StepKind.plotting⟩,
   ⟨"plt.show()", StepKind.display⟩,
   ⟨"x = [1, 2, 3, 4, 5]", StepKind.pureAssign⟩,
   ⟨"y = [1101, 1011, 1111, 1070, 1050]", StepKind.pureAssign⟩,
   ⟨"fig, (ax1, ax2, ax3, ax4) = plt.subplots(4)", StepKind.plotting⟩,
   ⟨"fig.tight_layout()", StepKind.plotting⟩,
   ⟨"ax1.bar(x, y)", StepKind.plotting⟩,
   ⟨"ax1.set_title(...)", StepKind.plotting⟩,
   ⟨"ax2.bar(x, y)", StepKind.plotting⟩,
   ⟨"ax2.set_ylim(1000)", StepKind.plotting⟩,
   ⟨"ax2.set_title(...)", StepKind.plotting⟩,
   ⟨"ax3.bar(x, y)", StepKind.plotting⟩,
   ⟨"ax3.set_yscale(log)", StepKind.plotting⟩,
   ⟨"ax3.set_title(...)", StepKind.plotting⟩,
   ⟨"ax4.bar(x, y)", StepKind.plotting⟩,
   ⟨"ax4.set_ylim(0, 2000)", StepKind.plotting⟩,
   ⟨"ax4.set_title(...)", StepKind.plotting⟩]

/-- The cartopy axes-setup statements the spaghetti notebook repeats before
each hurricane plot: axes creation, land feature, gridlines and the four
gridline-label configuration assignments. -/
def cartopySetupSteps : List Step :=
  [⟨"ax = plt.axes(projection=ccrs.PlateCarree())", StepKind.plotting⟩,
   ⟨"ax.add_feature(cfeature.LAND, facecolor=lightgray)", StepKind.plotting⟩,
   ⟨"gl = ax.gridlines(...)", StepKind.plotting⟩,
   ⟨"gl.xlabels_top = False", StepKind.plotting⟩,
   ⟨"gl.ylabels_left = False", StepKind.plotting⟩,
   ⟨"gl.xlabel_style = ...", StepKind.plotting⟩,
   ⟨"gl.ylabel_style = ...", StepKind.plotting⟩]

/-- The polar-stereographic axes-setup statements the spaghetti notebook
repeats before each contour plot. -/
def polarSetupSteps : List Step :=
  [⟨"fig = plt.figure(figsize=(8, 8))", StepKind.plotting⟩,
   ⟨"ax = plt.axes(projection=ccrs.NorthPolarStereo())", StepKind.plotting⟩,
   ⟨"gv.set_map_boundary(ax, [-180, 180], [0, 40], south_pad=1)", StepKind.plotting⟩,
   ⟨"ax.add_feature(cfeature.LAND, facecolor=lightgray)", StepKind.plotting⟩,
   ⟨"gl = ax.gridlines(...)", StepKind.plotting⟩]

/-- The per-iteration statements of the contour loops of the spaghetti
notebook: an xarray time slice, the geocat-viz cyclic-longitude fix, and the
contour call. -/
def contourLoopBodySteps : List Step :=
  [⟨"p = ds.HGT.isel(time=...)", StepKind.libraryCompute⟩,
   ⟨"slon = gv.xr_add_cyclic_longitudes(p, lon)", StepKind.libraryCompute⟩,
   ⟨"p = slon.plot.contour(...)", StepKind.plotting⟩]

/-- The directional-labeling statements of the polar-stereographic cells:
gridline locators, the label-list construction, and the `ax.text` loop body. -/
def directionalLabelSteps : List Step :=
  [⟨"gl.ylocator = mticker.FixedLocator(np.arange(0, 90, 15))", StepKind.plotting⟩,
   ⟨"gl.xlocator = mticker.FixedLocator(np.arange(-180, 180, 30))", StepKind.plotting⟩,
   ⟨"ticks = np.arange(0, 210, 30)", StepKind.pureAssign⟩,
   ⟨"etick = [0] + [%dE...] + [180]", StepKind.pureAssign⟩,
   ⟨"wtick = [%dW...]", StepKind.pureAssign⟩,
   ⟨"labels = etick + wtick", StepKind.pureAssign⟩,
   ⟨"xticks = np.arange(0, 360, 30)", StepKind.pureAssign⟩,
   ⟨"yticks = np.full_like(xticks, -5)", StepKind.pureAssign⟩,
   ⟨"ax.text(xtick, ytick, label, ...)", StepKind.plotting⟩]

/-- Statements of the spaghetti notebook, in source order; the repeated
setup blocks, loop bodies and labeling blocks are spliced in where the
source repeats them. -/
def spaghettiNotebookSteps : List Step :=
  [⟨"import numpy as np", StepKind.importLib⟩,
   ⟨"import xarray as xr", StepKind.importLib⟩,
   ⟨"import datetime", StepKind.importLib⟩,
   ⟨"import matplotlib as mpl", StepKind.importLib⟩,
   ⟨"import matplotlib.pyplot as plt", StepKind.importLib⟩,
   ⟨"import matplotlib.ticker as mticker", StepKind.importLib⟩,
   ⟨"import matplotlib.pylab as pl", StepKind.importLib⟩,
   ⟨"import cartopy.crs as ccrs", StepKind.importLib⟩,
   ⟨"import cartopy.feature as cfeature", StepKind.importLib⟩,
   ⟨"import geocat.viz as gv", StepKind.importLib⟩,
   ⟨"import geocat.datafiles as gdf", StepKind.importLib⟩,
   ⟨"import tropycal.tracks as tracks", StepKind.importLib⟩,
   ⟨"import warnings", StepKind.importLib⟩,
   ⟨"warnings.filterwarnings(ignore)", StepKind.libraryCompute⟩,
   ⟨"basin = tracks.TrackDataset(basin=north_atlantic)", StepKind.libraryDataAccess⟩,
   ⟨"storm = basin.get_storm((sandy, 2012))", StepKind.libraryDataAccess⟩,
   ⟨"sandy_ds = storm.to_xarray()", StepKind.libraryDataAccess⟩,
   ⟨"sandy_ds", StepKind.display⟩,
   ⟨"forecasts = storm.get_operational_forecasts()", StepKind.libraryDataAccess⟩,
   ⟨"print(forecasts.keys())", StepKind.display⟩,
   ⟨"forecasts_AP01 = forecasts[AP01]", StepKind.pureAssign⟩,
   ⟨"print(forecasts_AP01.keys())", StepKind.display⟩]
  ++ cartopySetupSteps
  ++ cartopySetupSteps
  ++ [⟨"forecasts_AP01 = forecasts[AP01]", StepKind.pureAssign⟩,
      ⟨"forecast_path = plt.plot(forecasts_AP01[i][lon], forecasts_AP01[i][lat], ...)",
        StepKind.plotting⟩,
      ⟨"true_path = plt.plot(sandy_ds.lon, sandy_ds.lat, ...)", StepKind.plotting⟩,
      ⟨"plt.legend([true_path[0], forecast_path[0]], ...)", StepKind.plotting⟩,
      ⟨"plt.title(Hurricane Sandy (2012))", StepKind.plotting⟩]
  ++ cartopySetupSteps
  ++ [⟨"forecasts_AP01 = forecasts[AP01]", StepKind.pureAssign⟩,
      ⟨"format = %Y%m%d%H", StepKind.pureAssign⟩,
      ⟨"times = [datetime.datetime.strptime(i, format) for i in ...]", StepKind.libraryCompute⟩,
      ⟨"normalized_times = [(i - times[0]) / (times[-1] - times[0]) for i in times]",
        StepKind.pureAssign⟩,
      ⟨"cmap = mpl.colors.ListedColormap(plt.cm.autumn_r(normalized_times))",
        StepKind.libraryCompute⟩,
      ⟨"c = 0", StepKind.pureAssign⟩,
      ⟨"plt.plot(forecasts_AP01[i][lon], forecasts_AP01[i][lat], color=cmap(c), ...)",
        StepKind.plotting⟩,
      ⟨"c += 1", StepKind.pureAssign⟩,
      ⟨"true_path = plt.plot(sandy_ds.lon, sandy_ds.lat, ...)", StepKind.plotting⟩,
      ⟨"plt.legend()", StepKind.plotting⟩,
      ⟨"plt.title(Hurricane Sandy)", StepKind.plotting⟩,
      ⟨"cbar = plt.colorbar(plt.cm.ScalarMappable(cmap=cmap), ...)", StepKind.plotting⟩,
      ⟨"cbar.set_label(GFS AP01 Forecasts, labelpad=6)", StepKind.plotting⟩,
      ⟨"tick_indices = range(0, len(times), 4)", StepKind.pureAssign⟩,
      ⟨"cbar.set_ticks([normalized_times[i] for i in tick_indices])", StepKind.plotting⟩,
      ⟨"cbar.set_ticklabels([times[i].strftime(%d) for i in tick_indices], fontsize=8)",
        StepKind.plotting⟩,
      ⟨"cbar.ax.text(1.02, 0.5, OCT-2012, ...)", StepKind.plotting⟩,
      ⟨"GFS_keys = [AP + str(i).zfill(2) for i in range(1, 21)]", StepKind.pureAssign⟩,
      ⟨"time = 2012102700", StepKind.pureAssign⟩]
  ++ cartopySetupSteps
  ++ [⟨"ap = forecasts[GFS_keys[i]]", StepKind.pureAssign⟩,
      ⟨"forecast_path = plt.plot(ap[time][lon], ap[time][lat], ...)", StepKind.plotting⟩,
      ⟨"true_path = plt.plot(sandy_ds.lon, sandy_ds.lat, ...)", StepKind.plotting⟩,
      ⟨"plt.legend([true_path[0], forecast_path[0]], ..., loc=lower right)",
        StepKind.plotting⟩,
      ⟨"plt.title(Hurricane Sandy - GFS Forecasts from Oct-27-2012)", StepKind.plotting⟩,
      ⟨"ds = xr.open_dataset(gdf.get(netcdf_files/HGT500_MON_1958-1997.nc), decode_times=False)",
        StepKind.libraryDataAccess⟩,
      ⟨"ds", StepKind.display⟩]
  ++ polarSetupSteps
  ++ polarSetupSteps
  ++ [⟨"n = 19", StepKind.pureAssign⟩]
  ++ contourLoopBodySteps
  ++ polarSetupSteps
  ++ directionalLabelSteps
  ++ contourLoopBodySteps
  ++ [⟨"gv.set_titles_and_labels(ax, maintitle=..., lefttitle=..., righttitle=...)",
        StepKind.plotting⟩,
      ⟨"plt.tight_layout()", StepKind.plotting⟩]
  ++ polarSetupSteps
  ++ directionalLabelSteps
  ++ [⟨"n = 19", StepKind.pureAssign⟩,
      ⟨"cmap = plt.get_cmap(winter_r, n)", StepKind.libraryCompute⟩,
      ⟨"bounds = np.linspace(0, 1, n)", StepKind.pureAssign⟩]
  ++ contourLoopBodySteps
  ++ [⟨"year_0 = 1958", StepKind.pureAssign⟩,
      ⟨"year_n = (ds.time.isel(time=12*n) / 12).astype(int) + year_0", StepKind.libraryCompute⟩,
      ⟨"norm = plt.Normalize(vmin=year_0, vmax=year_n)", StepKind.libraryCompute⟩,
      ⟨"cbar = plt.colorbar(plt.cm.ScalarMappable(cmap=cmap, norm=norm), ...)",
        StepKind.plotting⟩,
      ⟨"cbar.set_ticks(np.arange(year_0+0.5, year_n))", StepKind.plotting⟩,
      ⟨"cbar.set_ticklabels(np.arange(year_0, year_n))", StepKind.plotting⟩,
      ⟨"cbar.set_label(Time (years))", StepKind.plotting⟩,
      ⟨"gv.set_titles_and_labels(ax, ...)", StepKind.plotting⟩,
      ⟨"plt.tight_layout()", StepKind.plotting⟩]
  ++ polarSetupSteps
  ++ directionalLabelSteps
  ++ [⟨"p = ds.HGT.isel(time=0)", StepKind.libraryCompute⟩,
      ⟨"slon = gv.xr_add_cyclic_longitudes(p, lon)", StepKind.libraryCompute⟩,
      ⟨"p = slon.plot.contour(..., colors=black, ...)", StepKind.plotting⟩,
      ⟨"colorlist = [crimson, green, blue, ...]", StepKind.pureAssign⟩]
  ++ contourLoopBodySteps
  ++ [⟨"gv.set_titles_and_labels(ax, ...)", StepKind.plotting⟩,
      ⟨"plt.tight_layout()", StepKind.plotting⟩]

/-- Every top-level statement of every code cell of the three notebooks. -/
def notebookSteps : List Step :=
  comparisonNotebookSteps ++ goodVizNotebookSteps ++ spaghettiNotebookSteps

set_option maxRecDepth 8192 in
/-- C6: the program never performs concurrency coordination and never owns
persistent state: every statement of the notebooks is an import, a pure
in-process assignment, a library data access, an in-process library
computation, a plotting-object operation or a display — no step spawns a
thread or task, opens a network connection of the repository's own, caches or
evicts data, or writes a persistent data format of the project's own. -/
theorem no_concurrency_no_persistence :
    notebookSteps.all (fun s =>
      (s.kind == StepKind.importLib || s.kind == StepKind.pureAssign
        || s.kind == StepKind.libraryDataAccess || s.kind == StepKind.libraryCompute
        || s.kind == StepKind.plotting || s.kind == StepKind.display)
      && !(s.kind == StepKind.threadSpawn) && !(s.kind == StepKind.networkOpen)
      && !(s.kind == StepKind.persistentWrite) && !(s.kind == StepKind.cacheManage)) = true := by
  decide

end Cookbook
